import Mathlib

/-!
Verification of the event-submission gateway of the vehicle-tracking-system
repository (src/client-flask/app.py) against its natural-language
specification.

The embedding is shallow: the payload values the gateway inspects are
modelled as JSON scalars (`JVal`), payload mappings as association lists,
and the process-wide `StompConnection` singleton as an explicit state
record.  The outcomes of the two effectful transport calls
(`stomp.Connection.connect` and `stomp.Connection.send`) are supplied as
Boolean oracles; everything else is translated directly from the Python
source.  Non-deterministic data the code generates (uuid4 ids, UTC
timestamps) is passed in as parameters, since no claim depends on their
values.
-/

/-- A JSON scalar value as carried in a request payload.  `null` models
Python `None` (which is what `dict.get` returns for an absent key with no
default, and what the gateway's None-filter removes). -/
inductive JVal where
  | null
  | bool (b : Bool)
  | str (s : String)
  | num (n : Int)
deriving DecidableEq, Repr

/-- A payload mapping (a parsed JSON object), and a built event dict. -/
abbrev Payload := List (String × JVal)

/-- An event dict as constructed by the gateway. -/
abbrev Event := List (String × JVal)

/-- Python `data.get(k, d)`: the stored value when the key is present (even
when that value is `None`), the default otherwise. -/
def getD (data : Payload) (k : String) (d : JVal) : JVal :=
  match data.lookup k with
  | some v => v
  | none => d

/-- Python truthiness of a JSON scalar (`data or []` coerces falsy bodies). -/
def JVal.truthy : JVal → Bool
  | .null => false
  | .bool b => b
  | .str s => !s.isEmpty
  | .num n => n != 0

/-- The exceptions the gateway's handlers can see: a failed
`stomp.Connection.connect`, a failed `stomp.Connection.send`, a `KeyError`
from `event['licensePlate']`, and the `AttributeError` raised by
`event_data.get` when a batch element is not a mapping. -/
inductive PyErr where
  | connectError
  | publishError
  | keyError (k : String)
  | attributeError
deriving DecidableEq, Repr

/-- The `StompConnection` singleton's state: `conn` is the transport handle
(`none` before any connect; `some b` a handle whose `is_connected()` reports
`b`), `connected` is the class's own flag. -/
structure StompConnection where
  conn : Option Bool
  connected : Bool
deriving DecidableEq, Repr

/-- `self.conn.is_connected()`, taken to be `false` when no handle exists. -/
def StompConnection.transportConnected (s : StompConnection) : Bool :=
  match s.conn with
  | some b => b
  | none => false

/-- `StompConnection.connect` from app.py: a fresh handle is created and a
handshake attempted (its outcome is the oracle `ok`).  On success the flag
is set; on failure the flag is cleared and the exception re-raised (the
second component). -/
def StompConnection.connect (ok : Bool) (_s : StompConnection) :
    StompConnection × Option PyErr :=
  if ok then (⟨some true, true⟩, none)
  else (⟨some false, false⟩, some .connectError)

/-- One observable step of `StompConnection.send`. -/
inductive TransportCall where
  | connectAttempt
  | publishAttempt
deriving DecidableEq, Repr

/-- What one `StompConnection.send` call did: the state it left, the
exception it raised (if any), the transport calls it made in order, and
whether the message was actually delivered to the broker. -/
structure SendOutcome where
  state : StompConnection
  error : Option PyErr
  trace : List TransportCall
  delivered : Bool
deriving DecidableEq, Repr

/-- `StompConnection.send` from app.py: when the flag is down or the
transport reports not connected, `connect()` runs first (oracle `co`); then
the body is published once (oracle `po`).  No branch retries. -/
def StompConnection.send (co po : Bool) (s : StompConnection) : SendOutcome :=
  if !s.connected || !s.transportConnected then
    match StompConnection.connect co s with
    | (s1, some e) => ⟨s1, some e, [.connectAttempt], false⟩
    | (s1, none) =>
      if po then ⟨s1, none, [.connectAttempt, .publishAttempt], true⟩
      else ⟨s1, some .publishError, [.connectAttempt, .publishAttempt], false⟩
  else
    if po then ⟨s, none, [.publishAttempt], true⟩
    else ⟨s, some .publishError, [.publishAttempt], false⟩

/-- `StompConnection.disconnect` from app.py: only when a handle exists and
its `is_connected()` is true does it close the handle and clear the flag. -/
def StompConnection.disconnect (s : StompConnection) : StompConnection :=
  match s.conn with
  | some true => ⟨some false, false⟩
  | _ => s

/-- The event dict built by `send_event` before the None-filter, with the
generated uuid and timestamp passed in. -/
def buildEvent (id ts : String) (data : Payload) : Event :=
  [("id", .str id),
   ("licensePlate", getD data "licensePlate" (getD data "license_plate" (.str "UNKNOWN"))),
   ("vehicleType", getD data "vehicleType" (getD data "vehicle_type" (.str "CAR"))),
   ("eventType", getD data "eventType" (getD data "event_type" (.str "DETECTION"))),
   ("latitude", getD data "latitude" .null),
   ("longitude", getD data "longitude" .null),
   ("speed", getD data "speed" .null),
   ("direction", getD data "direction" .null),
   ("source", .str "flask-client"),
   ("timestamp", .str ts)]

/-- `event = {k: v for k, v in event.items() if v is not None}`. -/
def stripNone (e : Event) : Event :=
  e.filter (fun kv => kv.2 != JVal.null)

/-- The canonical event `send_event` sends: build, then drop None values. -/
def normalizeSingle (id ts : String) (data : Payload) : Event :=
  stripNone (buildEvent id ts data)

/-- The event dict built per element by `send_batch`: only camelCase keys,
no optional fields, and no None-filter. -/
def buildBatchEvent (id ts : String) (m : Payload) : Event :=
  [("id", .str id),
   ("licensePlate", getD m "licensePlate" (.str "UNKNOWN")),
   ("vehicleType", getD m "vehicleType" (.str "CAR")),
   ("eventType", getD m "eventType" (.str "DETECTION")),
   ("source", .str "flask-client"),
   ("timestamp", .str ts)]

/-- The gateway's state around one `/api/send` request: the shared
connection, the two Prometheus counters, the number of latency observations
recorded, and the log of events actually delivered to the broker. -/
structure GwState where
  conn : StompConnection
  sent : Nat
  failed : Nat
  latencyObs : Nat
  published : List Event
deriving DecidableEq, Repr

/-- The JSON body `/api/send` answers with: `ok` is
`{success: true, event, message}` (HTTP 200), `fail` is
`{success: false, error}` (HTTP 500). -/
inductive SendEventResponse where
  | ok (event : Event)
  | fail (e : PyErr)
deriving DecidableEq, Repr

/-- The HTTP status `send_event` pairs with each response shape. -/
def statusCode : SendEventResponse → Nat
  | .ok _ => 200
  | .fail _ => 500

/-- The `send_event` handler: normalize, send, increment `messages_sent`
and observe latency, then build the success response — whose log line reads
`event['licensePlate']` and raises `KeyError` when the None-filter removed
that key.  Any exception lands in the handler that increments
`messages_failed` and answers with HTTP 500. -/
def send_event (co po : Bool) (id ts : String) (data : Payload) (g : GwState) :
    GwState × SendEventResponse :=
  let event := normalizeSingle id ts data
  let r := StompConnection.send co po g.conn
  match r.error with
  | some e => (⟨r.state, g.sent, g.failed + 1, g.latencyObs, g.published⟩, .fail e)
  | none =>
    let pub := g.published ++ [event]
    match event.lookup "licensePlate" with
    | some _ => (⟨r.state, g.sent + 1, g.failed, g.latencyObs + 1, pub⟩, .ok event)
    | none =>
      (⟨r.state, g.sent + 1, g.failed + 1, g.latencyObs + 1, pub⟩,
       .fail (.keyError "licensePlate"))

/-- One element of a parsed batch body: a mapping, or any other JSON value
(on which `event_data.get` raises `AttributeError`). -/
inductive BatchElem where
  | mapping (m : Payload)
  | scalar (v : JVal)
deriving DecidableEq, Repr

/-- A parsed `/api/send/batch` body. -/
inductive BatchBody where
  | scalarBody (v : JVal)
  | mappingBody (m : Payload)
  | listBody (xs : List BatchElem)
deriving DecidableEq, Repr

/-- Python truthiness of a parsed body (`request.get_json() or []`). -/
def bodyTruthy : BatchBody → Bool
  | .scalarBody v => v.truthy
  | .mappingBody m => !m.isEmpty
  | .listBody xs => !xs.isEmpty

/-- `events = request.get_json() or []` followed by
`if not isinstance(events, list): events = [events]`. -/
def coerceEvents (b : BatchBody) : List BatchElem :=
  if bodyTruthy b then
    match b with
    | .listBody xs => xs
    | .mappingBody m => [.mapping m]
    | .scalarBody v => [.scalar v]
  else []

/-- One entry of the batch `results` list. -/
inductive BatchResult where
  | ok (plate : JVal)
  | err (e : PyErr)
deriving DecidableEq, Repr

/-- `r.get('success')` of a result entry. -/
def BatchResult.isOk : BatchResult → Bool
  | .ok _ => true
  | .err _ => false

/-- The mutable state threaded through the batch loop. -/
structure BatchState where
  conn : StompConnection
  sent : Nat
  failed : Nat
  published : List Event
deriving DecidableEq, Repr

/-- The body of `send_batch`'s per-element try/except: a non-mapping element
raises `AttributeError` at the first `.get`; a mapping is normalized and
sent, `messages_sent` is incremented, and the success entry reads
`event['licensePlate']` (counted in `messages_failed` if any of this
raises). -/
def batchStep (co po : Bool) (id ts : String) (e : BatchElem) (b : BatchState) :
    BatchState × BatchResult :=
  match e with
  | .scalar _ => (⟨b.conn, b.sent, b.failed + 1, b.published⟩, .err .attributeError)
  | .mapping m =>
    let event := buildBatchEvent id ts m
    let r := StompConnection.send co po b.conn
    match r.error with
    | some er => (⟨r.state, b.sent, b.failed + 1, b.published⟩, .err er)
    | none =>
      match event.lookup "licensePlate" with
      | some p => (⟨r.state, b.sent + 1, b.failed, b.published ++ [event]⟩, .ok p)
      | none =>
        (⟨r.state, b.sent + 1, b.failed + 1, b.published ++ [event]⟩,
         .err (.keyError "licensePlate"))

/-- The `for event_data in events` loop, collecting one result per element.
`oracle i` gives the transport outcomes and `idg i` the generated uuid for
the element at absolute position `i`. -/
def batchLoop (oracle : Nat → Bool × Bool) (idg : Nat → String) (ts : String)
    (es : List BatchElem) (b : BatchState) (i : Nat) :
    BatchState × List BatchResult :=
  match es with
  | [] => (b, [])
  | e :: rest =>
    let s1 := batchStep (oracle i).1 (oracle i).2 (idg i) ts e b
    let s2 := batchLoop oracle idg ts rest s1.1 (i + 1)
    (s2.1, s1.2 :: s2.2)

/-- The JSON body `/api/send/batch` answers with: the normal
`{total, successful, results}` (HTTP 200), or the outer handler's
`{error}` (HTTP 500) — the latter is reachable only from failures before
the loop (for example an unparseable request body), never from a parsed
body. -/
inductive BatchResponse where
  | ok (total successful : Nat) (results : List BatchResult)
  | batchError (e : PyErr)
deriving DecidableEq, Repr

/-- `total` of a batch response. -/
def BatchResponse.total : BatchResponse → Nat
  | .ok t _ _ => t
  | .batchError _ => 0

/-- `successful` of a batch response. -/
def BatchResponse.successful : BatchResponse → Nat
  | .ok _ s _ => s
  | .batchError _ => 0

/-- `results` of a batch response. -/
def BatchResponse.results : BatchResponse → List BatchResult
  | .ok _ _ rs => rs
  | .batchError _ => []

/-- Whether the response is the batch-level error shape. -/
def BatchResponse.isBatchError : BatchResponse → Bool
  | .batchError _ => true
  | .ok _ _ _ => false

/-- The `send_batch` handler on a parsed body: coerce the body to a list,
run the loop, and answer with `total = len(events)`,
`successful = sum(1 for r in results if r.get('success'))`, and the
ordered results. -/
def send_batch (oracle : Nat → Bool × Bool) (idg : Nat → String) (ts : String)
    (body : BatchBody) (b : BatchState) : BatchState × BatchResponse :=
  let events := coerceEvents body
  let out := batchLoop oracle idg ts events b 0
  (out.1, .ok events.length (out.2.countP (fun r => r.isOk)) out.2)

/-! ## Helper lemmas -/

/-- The keys of the dict built by `send_event`, in construction order. -/
theorem buildEvent_keys (id ts : String) (data : Payload) :
    (buildEvent id ts data).map Prod.fst =
      ["id", "licensePlate", "vehicleType", "eventType", "latitude", "longitude",
       "speed", "direction", "source", "timestamp"] := rfl

/-- A key outside an association list's key set looks up to nothing. -/
theorem lookup_eq_none_of_not_mem (l : List (String × JVal)) (k : String)
    (h : k ∉ l.map Prod.fst) : l.lookup k = none := by
  induction l with
  | nil => rfl
  | cons kv t ih =>
    simp only [List.map_cons, List.mem_cons, not_or] at h
    have hk : (k == kv.1) = false := by simpa using h.1
    simp [List.lookup, hk, ih h.2]

/-- The None-filter only removes keys, it never adds one. -/
theorem stripNone_keys_sub (l : Event) (k : String)
    (h : k ∉ l.map Prod.fst) : k ∉ (stripNone l).map Prod.fst := by
  intro hmem
  apply h
  obtain ⟨kv, hkv, hfst⟩ := List.mem_map.mp hmem
  exact List.mem_map.mpr ⟨kv, (List.mem_filter.mp hkv).1, hfst⟩

/-- On an association list with distinct keys, looking up after the
None-filter returns the stored value unless that value was null. -/
theorem lookup_stripNone (l : Event) (k : String) (h : (l.map Prod.fst).Nodup) :
    (stripNone l).lookup k =
      ((l.lookup k).bind (fun v => if v == JVal.null then none else some v)) := by
  induction l with
  | nil => rfl
  | cons kv t ih =>
    simp only [List.map_cons, List.nodup_cons] at h
    by_cases hk : k = kv.1
    · subst hk
      by_cases hv : kv.2 = JVal.null
      · have hs : stripNone (kv :: t) = stripNone t := by
          simp [stripNone, List.filter_cons, hv]
        rw [hs, lookup_eq_none_of_not_mem _ _ (stripNone_keys_sub t _ h.1)]
        simp [List.lookup, hv]
      · have hbne : (kv.2 != JVal.null) = true := by simpa using hv
        have hs : stripNone (kv :: t) = kv :: stripNone t := by
          simp [stripNone, List.filter_cons, hbne]
        rw [hs]
        simp [List.lookup, hv]
    · have hbk : (k == kv.1) = false := by simpa using hk
      have hrec := ih h.2
      by_cases hv : kv.2 = JVal.null
      · have hs : stripNone (kv :: t) = stripNone t := by
          simp [stripNone, List.filter_cons, hv]
        rw [hs, hrec]
        simp [List.lookup, hbk]
      · have hbne : (kv.2 != JVal.null) = true := by simpa using hv
        have hs : stripNone (kv :: t) = kv :: stripNone t := by
          simp [stripNone, List.filter_cons, hbne]
        rw [hs]
        simp [List.lookup, hbk, hrec]

/-- Looking a field up in the canonical single event: the value stored by
`buildEvent`, with null filtered to absence. -/
theorem normalizeSingle_lookup (id ts : String) (data : Payload) (k : String) :
    (normalizeSingle id ts data).lookup k =
      (((buildEvent id ts data).lookup k).bind
        (fun v => if v == JVal.null then none else some v)) :=
  lookup_stripNone _ _ (by rw [buildEvent_keys]; decide)

/-- The `licensePlate` entry `send_event` builds. -/
theorem buildEvent_lookup_plate (id ts : String) (data : Payload) :
    (buildEvent id ts data).lookup "licensePlate" =
      some (getD data "licensePlate" (getD data "license_plate" (JVal.str "UNKNOWN"))) := rfl

/-- The `vehicleType` entry `send_event` builds. -/
theorem buildEvent_lookup_vtype (id ts : String) (data : Payload) :
    (buildEvent id ts data).lookup "vehicleType" =
      some (getD data "vehicleType" (getD data "vehicle_type" (JVal.str "CAR"))) := rfl

/-- The `eventType` entry `send_event` builds. -/
theorem buildEvent_lookup_etype (id ts : String) (data : Payload) :
    (buildEvent id ts data).lookup "eventType" =
      some (getD data "eventType" (getD data "event_type" (JVal.str "DETECTION"))) := rfl

/-- The `licensePlate` entry of a batch event. -/
theorem buildBatchEvent_lookup_plate (id ts : String) (m : Payload) :
    (buildBatchEvent id ts m).lookup "licensePlate" =
      some (getD m "licensePlate" (JVal.str "UNKNOWN")) := rfl

/-- `dict.get` when the key is present. -/
theorem getD_some {data : Payload} {k : String} {v d : JVal}
    (h : data.lookup k = some v) : getD data k d = v := by
  rw [getD, h]

/-- `dict.get` when the key is absent. -/
theorem getD_none {data : Payload} {k : String} {d : JVal}
    (h : data.lookup k = none) : getD data k d = d := by
  rw [getD, h]

/-- The batch loop answers with exactly one result per element. -/
theorem batchLoop_length (oracle : Nat → Bool × Bool) (idg : Nat → String) (ts : String) :
    ∀ (es : List BatchElem) (b : BatchState) (i : Nat),
      (batchLoop oracle idg ts es b i).2.length = es.length := by
  intro es
  induction es with
  | nil => intro b i; rfl
  | cons e rest ih => intro b i; simp [batchLoop, ih]

/-- A success entry at position `j` of a mapping batch carries the resolved
license plate of the `j`-th submitted mapping. -/
theorem batchLoop_ok_plate (oracle : Nat → Bool × Bool) (idg : Nat → String) (ts : String) :
    ∀ (ms : List Payload) (b : BatchState) (i j : Nat) (p : JVal),
      (batchLoop oracle idg ts (ms.map BatchElem.mapping) b i).2.get? j =
        some (BatchResult.ok p) →
      ∃ m, ms.get? j = some m ∧ p = getD m "licensePlate" (JVal.str "UNKNOWN") := by
  intro ms
  induction ms with
  | nil => intro b i j p h; simp [batchLoop] at h
  | cons m rest ih =>
    intro b i j p h
    cases j with
    | zero =>
      refine ⟨m, rfl, ?_⟩
      simp only [List.map_cons, batchLoop, List.get?] at h
      rw [batchStep] at h
      simp only [buildBatchEvent_lookup_plate] at h
      cases he : (StompConnection.send (oracle i).1 (oracle i).2 b.conn).error with
      | none =>
        rw [he] at h
        simp at h
        exact h.symm
      | some er =>
        rw [he] at h
        simp at h
    | succ j2 =>
      simp only [List.map_cons, batchLoop, List.get?] at h
      exact ih _ _ _ _ h

/-- Successes and failures of a results list partition it. -/
theorem countP_ok_total (l : List BatchResult) :
    l.countP (fun r => r.isOk) + l.countP (fun r => !r.isOk) = l.length := by
  induction l with
  | nil => rfl
  | cons r t ih =>
    cases hr : r.isOk <;> simp [List.countP_cons, hr] <;> omega

/-- A parsed list body passes through the coercion untouched (an empty list
is falsy, but `[] or []` is again the empty list). -/
theorem coerceEvents_list (xs : List BatchElem) :
    coerceEvents (BatchBody.listBody xs) = xs := by
  cases xs <;> rfl

/-! ## Claim theorems -/

/-- Claim C1, counterexample: from a state whose flag and transport both
report connected, a send whose publish fails leaves `connected = true` —
the state does not transition to disconnected as the claim requires. -/
theorem C1_counterexample :
    (StompConnection.send true false ⟨some true, true⟩).error = some PyErr.publishError ∧
    (StompConnection.send true false ⟨some true, true⟩).state.connected = true := by
  decide

/-- Claim C1, amended: `send` never clears the connected flag on a publish
failure — after any send, `connected = false` holds exactly when the
implicit `connect()` step failed; a send that fails with a publish error
leaves `connected = true`, and from a fully connected state a send leaves
the connection state unchanged whatever the publish outcome. -/
theorem C1_send_failure_connected_flag (co po : Bool) (s : StompConnection) :
    ((StompConnection.send co po s).state.connected = false ↔
      (StompConnection.send co po s).error = some PyErr.connectError) ∧
    ((StompConnection.send co po s).error = some PyErr.publishError →
      (StompConnection.send co po s).state.connected = true) ∧
    (s.connected = true → s.transportConnected = true →
      (StompConnection.send co po s).state = s) := by
  obtain ⟨c, f⟩ := s
  cases c with
  | none => cases f <;> cases co <;> cases po <;> decide
  | some b => cases b <;> cases f <;> cases co <;> cases po <;> decide

/-- Claim C2, counterexample: a batch element supplying the plate only
under the snake_case key `license_plate` is normalized to the default
`UNKNOWN`, not to the supplied value — the alternate key is recognized by
`send_event` but not by `send_batch`. -/
theorem C2_counterexample :
    (send_batch (fun _ => (true, true)) (fun _ => "i") "t"
        (BatchBody.listBody [BatchElem.mapping [("license_plate", JVal.str "ABC")]])
        ⟨⟨some true, true⟩, 0, 0, []⟩).2.results = [BatchResult.ok (JVal.str "UNKNOWN")] ∧
    (buildBatchEvent "i" "t" [("license_plate", JVal.str "ABC")]).lookup "licensePlate" =
      some (JVal.str "UNKNOWN") := by
  decide

/-- Claim C2, amended: in the single-event path, each of
licensePlate/vehicleType/eventType equals the caller-supplied value when it
is present and non-null under the camelCase key (checked first) or
otherwise under the snake_case key, and equals the default
`UNKNOWN`/`CAR`/`DETECTION` when absent under both (a null supplied value
is stripped from the event instead).  In the batch path only the camelCase
key is consulted: the field equals its value when that key is present and
the default otherwise, the snake_case key being ignored. -/
theorem C2_normalization_fields (id ts : String) (data : Payload) :
    ((∀ v, v ≠ JVal.null → data.lookup "licensePlate" = some v →
        (normalizeSingle id ts data).lookup "licensePlate" = some v) ∧
     (∀ v, v ≠ JVal.null → data.lookup "licensePlate" = none →
        data.lookup "license_plate" = some v →
        (normalizeSingle id ts data).lookup "licensePlate" = some v) ∧
     (data.lookup "licensePlate" = none → data.lookup "license_plate" = none →
        (normalizeSingle id ts data).lookup "licensePlate" = some (JVal.str "UNKNOWN"))) ∧
    ((∀ v, v ≠ JVal.null → data.lookup "vehicleType" = some v →
        (normalizeSingle id ts data).lookup "vehicleType" = some v) ∧
     (∀ v, v ≠ JVal.null → data.lookup "vehicleType" = none →
        data.lookup "vehicle_type" = some v →
        (normalizeSingle id ts data).lookup "vehicleType" = some v) ∧
     (data.lookup "vehicleType" = none → data.lookup "vehicle_type" = none →
        (normalizeSingle id ts data).lookup "vehicleType" = some (JVal.str "CAR"))) ∧
    ((∀ v, v ≠ JVal.null → data.lookup "eventType" = some v →
        (normalizeSingle id ts data).lookup "eventType" = some v) ∧
     (∀ v, v ≠ JVal.null → data.lookup "eventType" = none →
        data.lookup "event_type" = some v →
        (normalizeSingle id ts data).lookup "eventType" = some v) ∧
     (data.lookup "eventType" = none → data.lookup "event_type" = none →
        (normalizeSingle id ts data).lookup "eventType" = some (JVal.str "DETECTION"))) ∧
    ((∀ v, data.lookup "licensePlate" = some v →
        (buildBatchEvent id ts data).lookup "licensePlate" = some v) ∧
     (data.lookup "licensePlate" = none →
        (buildBatchEvent id ts data).lookup "licensePlate" = some (JVal.str "UNKNOWN"))) ∧
    ((∀ v, data.lookup "vehicleType" = some v →
        (buildBatchEvent id ts data).lookup "vehicleType" = some v) ∧
     (data.lookup "vehicleType" = none →
        (buildBatchEvent id ts data).lookup "vehicleType" = some (JVal.str "CAR"))) ∧
    ((∀ v, data.lookup "eventType" = some v →
        (buildBatchEvent id ts data).lookup "eventType" = some v) ∧
     (data.lookup "eventType" = none →
        (buildBatchEvent id ts data).lookup "eventType" = some (JVal.str "DETECTION"))) := by
  have hbb1 : (buildBatchEvent id ts data).lookup "licensePlate" =
      some (getD data "licensePlate" (JVal.str "UNKNOWN")) := rfl
  have hbb2 : (buildBatchEvent id ts data).lookup "vehicleType" =
      some (getD data "vehicleType" (JVal.str "CAR")) := rfl
  have hbb3 : (buildBatchEvent id ts data).lookup "eventType" =
      some (getD data "eventType" (JVal.str "DETECTION")) := rfl
  refine ⟨⟨?_, ?_, ?_⟩, ⟨?_, ?_, ?_⟩, ⟨?_, ?_, ?_⟩, ⟨?_, ?_⟩, ⟨?_, ?_⟩, ⟨?_, ?_⟩⟩
  · intro v hv h
    rw [normalizeSingle_lookup, buildEvent_lookup_plate, getD_some h]
    simp [hv]
  · intro v hv h h2
    rw [normalizeSingle_lookup, buildEvent_lookup_plate, getD_none h, getD_some h2]
    simp [hv]
  · intro h h2
    rw [normalizeSingle_lookup, buildEvent_lookup_plate, getD_none h, getD_none h2]
    simp
  · intro v hv h
    rw [normalizeSingle_lookup, buildEvent_lookup_vtype, getD_some h]
    simp [hv]
  · intro v hv h h2
    rw [normalizeSingle_lookup, buildEvent_lookup_vtype, getD_none h, getD_some h2]
    simp [hv]
  · intro h h2
    rw [normalizeSingle_lookup, buildEvent_lookup_vtype, getD_none h, getD_none h2]
    simp
  · intro v hv h
    rw [normalizeSingle_lookup, buildEvent_lookup_etype, getD_some h]
    simp [hv]
  · intro v hv h h2
    rw [normalizeSingle_lookup, buildEvent_lookup_etype, getD_none h, getD_some h2]
    simp [hv]
  · intro h h2
    rw [normalizeSingle_lookup, buildEvent_lookup_etype, getD_none h, getD_none h2]
    simp
  · intro v h; rw [hbb1, getD_some h]
  · intro h; rw [hbb1, getD_none h]
  · intro v h; rw [hbb2, getD_some h]
  · intro h; rw [hbb2, getD_none h]
  · intro v h; rw [hbb3, getD_some h]
  · intro h; rw [hbb3, getD_none h]

/-- Claim C3, counterexample: a batch element supplying `latitude` is
normalized to an event with no latitude at all — `send_batch` never copies
the optional fields, and the event it publishes omits them. -/
theorem C3_counterexample :
    List.lookup "latitude" [("latitude", JVal.num 5)] = some (JVal.num 5) ∧
    (buildBatchEvent "i" "t" [("latitude", JVal.num 5)]).lookup "latitude" = none ∧
    (send_batch (fun _ => (true, true)) (fun _ => "i") "t"
        (BatchBody.listBody [BatchElem.mapping [("latitude", JVal.num 5)]])
        ⟨⟨some true, true⟩, 0, 0, []⟩).1.published =
      [[("id", JVal.str "i"), ("licensePlate", JVal.str "UNKNOWN"),
        ("vehicleType", JVal.str "CAR"), ("eventType", JVal.str "DETECTION"),
        ("source", JVal.str "flask-client"), ("timestamp", JVal.str "t")]] := by
  decide

/-- Claim C3, amended: in the single-event path each optional field
latitude/longitude/speed/direction is copied through unchanged when present
with a non-null value, and is absent from the canonical event when absent
from the input or supplied as null; the batch path omits these fields
entirely regardless of the input. -/
theorem C3_optional_fields (id ts : String) (data : Payload) :
    ∀ k, k ∈ ["latitude", "longitude", "speed", "direction"] →
      ((∀ v, v ≠ JVal.null → data.lookup k = some v →
          (normalizeSingle id ts data).lookup k = some v) ∧
       (data.lookup k = none → (normalizeSingle id ts data).lookup k = none) ∧
       (data.lookup k = some JVal.null → (normalizeSingle id ts data).lookup k = none) ∧
       (buildBatchEvent id ts data).lookup k = none) := by
  intro k hk
  have hcase : k = "latitude" ∨ k = "longitude" ∨ k = "speed" ∨ k = "direction" := by
    simpa using hk
  have hbuild : (buildEvent id ts data).lookup k = some (getD data k JVal.null) := by
    rcases hcase with h | h | h | h <;> subst h <;> rfl
  have hbatch : (buildBatchEvent id ts data).lookup k = none := by
    rcases hcase with h | h | h | h <;> subst h <;> rfl
  refine ⟨?_, ?_, ?_, hbatch⟩
  · intro v hv h
    rw [normalizeSingle_lookup, hbuild, getD_some h]
    simp [hv]
  · intro h
    rw [normalizeSingle_lookup, hbuild, getD_none h]
    simp
  · intro h
    rw [normalizeSingle_lookup, hbuild, getD_some h]
    simp

/-- Claim C3, witness: a supplied speed of 45 rides through the single-event
normalization unchanged. -/
theorem C3_optional_fields_witness :
    (normalizeSingle "i" "t" [("speed", JVal.num 45)]).lookup "speed" =
      some (JVal.num 45) :=
  ((C3_optional_fields "i" "t" [("speed", JVal.num 45)] "speed" (by decide)).1
    (JVal.num 45) (by decide) rfl)

/-- Claim C4: for a batch of N payload mappings in which exactly one
element's per-element processing fails, the response's `total` is N, the
results list has one entry per element, `successful` is N - 1, and every
success entry at position j carries the resolved license plate of the j-th
submitted mapping (outcomes stay in submission order). -/
theorem C4_batch_isolation (oracle : Nat → Bool × Bool) (idg : Nat → String)
    (ts : String) (ms : List Payload) (b : BatchState)
    (h : ((send_batch oracle idg ts (BatchBody.listBody (ms.map BatchElem.mapping))
            b).2.results.countP (fun r => !r.isOk)) = 1) :
    (send_batch oracle idg ts (BatchBody.listBody (ms.map BatchElem.mapping)) b).2.total
        = ms.length ∧
    (send_batch oracle idg ts (BatchBody.listBody (ms.map BatchElem.mapping))
        b).2.results.length = ms.length ∧
    (send_batch oracle idg ts (BatchBody.listBody (ms.map BatchElem.mapping))
        b).2.successful = ms.length - 1 ∧
    ∀ j p,
      (send_batch oracle idg ts (BatchBody.listBody (ms.map BatchElem.mapping))
          b).2.results.get? j = some (BatchResult.ok p) →
      ∃ m, ms.get? j = some m ∧ p = getD m "licensePlate" (JVal.str "UNKNOWN") := by
  have hco : coerceEvents (BatchBody.listBody (ms.map BatchElem.mapping))
      = ms.map BatchElem.mapping := coerceEvents_list _
  have hres : (send_batch oracle idg ts (BatchBody.listBody (ms.map BatchElem.mapping))
        b).2.results = (batchLoop oracle idg ts (ms.map BatchElem.mapping) b 0).2 := by
    simp [send_batch, hco, BatchResponse.results]
  have hlen : (batchLoop oracle idg ts (ms.map BatchElem.mapping) b 0).2.length
      = ms.length := by
    rw [batchLoop_length]; simp
  refine ⟨?_, ?_, ?_, ?_⟩
  · simp [send_batch, hco, BatchResponse.total]
  · rw [hres, hlen]
  · have htot := countP_ok_total (batchLoop oracle idg ts (ms.map BatchElem.mapping) b 0).2
    rw [hres] at h
    have hsucc : (send_batch oracle idg ts (BatchBody.listBody (ms.map BatchElem.mapping))
          b).2.successful
        = (batchLoop oracle idg ts (ms.map BatchElem.mapping) b 0).2.countP
            (fun r => r.isOk) := by
      simp [send_batch, hco, BatchResponse.successful]
    rw [hsucc]
    omega
  · intro j p hj
    rw [hres] at hj
    exact batchLoop_ok_plate oracle idg ts ms b 0 j p hj

/-- Claim C4, witness: a two-element batch whose first element's publish
fails answers with total 2 and successful 1, and its success entry carries
the second element's plate. -/
theorem C4_batch_isolation_witness :
    (send_batch (fun i => (true, !(i == 0))) (fun _ => "i") "t"
        (BatchBody.listBody
          ([[("licensePlate", JVal.str "A")], [("licensePlate", JVal.str "B")]].map
            BatchElem.mapping))
        ⟨⟨some true, true⟩, 0, 0, []⟩).2.total = 2 ∧
    (send_batch (fun i => (true, !(i == 0))) (fun _ => "i") "t"
        (BatchBody.listBody
          ([[("licensePlate", JVal.str "A")], [("licensePlate", JVal.str "B")]].map
            BatchElem.mapping))
        ⟨⟨some true, true⟩, 0, 0, []⟩).2.successful = 1 := by
  have h := C4_batch_isolation (fun i => (true, !(i == 0))) (fun _ => "i") "t"
      [[("licensePlate", JVal.str "A")], [("licensePlate", JVal.str "B")]]
      ⟨⟨some true, true⟩, 0, 0, []⟩ (by decide)
  exact ⟨h.1, h.2.2.1⟩

/-- Claim C5: a send made while the flag is down or the transport reports
not connected performs exactly one connect attempt, first, followed by at
most one publish attempt (none when the connect failed), and surfaces the
first failure immediately: a failed connect raises the connection error, a
failed publish raises the publish error, and a clean run raises nothing. -/
theorem C5_single_reconnect (co po : Bool) (s : StompConnection)
    (h : s.connected = false ∨ s.transportConnected = false) :
    (StompConnection.send co po s).trace =
      TransportCall.connectAttempt ::
        (if co then [TransportCall.publishAttempt] else []) ∧
    (co = false → (StompConnection.send co po s).error = some PyErr.connectError) ∧
    (co = true → po = false →
      (StompConnection.send co po s).error = some PyErr.publishError) ∧
    (co = true → po = true → (StompConnection.send co po s).error = none) := by
  obtain ⟨c, f⟩ := s
  revert h
  cases c with
  | none => cases f <;> cases co <;> cases po <;> decide
  | some b => cases b <;> cases f <;> cases co <;> cases po <;> decide

/-- Claim C5, witness: a send from the fresh, never-connected state makes
one connect attempt and then one publish attempt. -/
theorem C5_single_reconnect_witness :
    (StompConnection.send true true ⟨none, false⟩).trace =
      [TransportCall.connectAttempt, TransportCall.publishAttempt] := by
  have h := C5_single_reconnect true true ⟨none, false⟩ (Or.inl rfl)
  simpa using h.1

/-- Claim C6, counterexample: a whole batch body that is a bare string —
neither a sequence of mappings nor a mapping — does not produce a
batch-level error response: it is coerced to a one-element sequence and
reported as an ordinary per-element failure with total 1. -/
theorem C6_counterexample :
    (send_batch (fun _ => (true, true)) (fun _ => "i") "t"
        (BatchBody.scalarBody (JVal.str "x")) ⟨⟨some true, true⟩, 0, 0, []⟩).2 =
      BatchResponse.ok 1 0 [BatchResult.err PyErr.attributeError] ∧
    (send_batch (fun _ => (true, true)) (fun _ => "i") "t"
        (BatchBody.scalarBody (JVal.str "x"))
        ⟨⟨some true, true⟩, 0, 0, []⟩).2.isBatchError = false := by
  decide

/-- Claim C6, amended: a parsed body that is not a list is coerced like a
single mapping whatever it is: a truthy non-mapping body becomes a
one-element batch whose element fails per-element (total 1, successful 0),
a falsy body becomes an empty batch (total 0), and no parsed body ever
produces the batch-level error response — that response arises only from
failures before the per-element loop, such as an unparseable request
body. -/
theorem C6_coerced_body (v : JVal) (oracle : Nat → Bool × Bool)
    (idg : Nat → String) (ts : String) (b : BatchState) :
    (v.truthy = true →
      (send_batch oracle idg ts (BatchBody.scalarBody v) b).2 =
        BatchResponse.ok 1 0 [BatchResult.err PyErr.attributeError]) ∧
    (v.truthy = false →
      (send_batch oracle idg ts (BatchBody.scalarBody v) b).2 =
        BatchResponse.ok 0 0 []) ∧
    (∀ body : BatchBody,
      (send_batch oracle idg ts body b).2.isBatchError = false) := by
  refine ⟨?_, ?_, ?_⟩
  · intro h
    simp [send_batch, coerceEvents, bodyTruthy, h, batchLoop, batchStep, List.countP,
      List.countP.go, BatchResult.isOk]
  · intro h
    simp [send_batch, coerceEvents, bodyTruthy, h, batchLoop]
  · intro body
    rfl

/-- Claim C7, evaluated at the failing input: a single-event payload whose
`licensePlate` key carries null.  The publish succeeds (the event — with
the plate stripped by the None-filter — is delivered and logged in
`published`), the sent counter and the latency observation are both
recorded, and then the response-building log line's `event['licensePlate']`
raises, so the failed counter is also incremented and the caller receives a
500 failure: an event is produced AND a failure is reported, contradicting
the claim's "never both". -/
theorem C7_null_plate_eval :
    (send_event true true "i" "t" [("licensePlate", JVal.null)]
        ⟨⟨some true, true⟩, 0, 0, 0, []⟩).1.published =
      [[("id", JVal.str "i"), ("vehicleType", JVal.str "CAR"),
        ("eventType", JVal.str "DETECTION"), ("source", JVal.str "flask-client"),
        ("timestamp", JVal.str "t")]] ∧
    (send_event true true "i" "t" [("licensePlate", JVal.null)]
        ⟨⟨some true, true⟩, 0, 0, 0, []⟩).2 =
      SendEventResponse.fail (PyErr.keyError "licensePlate") ∧
    statusCode (send_event true true "i" "t" [("licensePlate", JVal.null)]
        ⟨⟨some true, true⟩, 0, 0, 0, []⟩).2 = 500 ∧
    (send_event true true "i" "t" [("licensePlate", JVal.null)]
        ⟨⟨some true, true⟩, 0, 0, 0, []⟩).1.sent = 1 ∧
    (send_event true true "i" "t" [("licensePlate", JVal.null)]
        ⟨⟨some true, true⟩, 0, 0, 0, []⟩).1.failed = 1 ∧
    (send_event true true "i" "t" [("licensePlate", JVal.null)]
        ⟨⟨some true, true⟩, 0, 0, 0, []⟩).1.latencyObs = 1 := by
  decide

/-- Claim C8: `connect()` marks the state connected and raises nothing on
success; on failure it marks the state disconnected and propagates the
connection error to its caller. -/
theorem C8_connect_marks_state (ok : Bool) (s : StompConnection) :
    ((StompConnection.connect ok s).1.connected = ok) ∧
    ((StompConnection.connect ok s).2 =
      if ok then none else some PyErr.connectError) := by
  cases ok <;> exact ⟨rfl, rfl⟩

/-- Claim C9: `disconnect()` is a no-op (state and transport handle
unchanged) when the transport does not report an established connection;
when it does, disconnect closes the transport and clears the connected
flag; and the operation is idempotent. -/
theorem C9_disconnect_idempotent (s : StompConnection) :
    (s.transportConnected = false → StompConnection.disconnect s = s) ∧
    (s.transportConnected = true →
      (StompConnection.disconnect s).connected = false ∧
      (StompConnection.disconnect s).transportConnected = false) ∧
    StompConnection.disconnect (StompConnection.disconnect s) =
      StompConnection.disconnect s := by
  obtain ⟨c, f⟩ := s
  cases c with
  | none => cases f <;> decide
  | some b => cases b <;> cases f <;> decide

/-- Claim C10, counterexample: at the null-plate payload the sent counter
IS incremented (alongside the failed counter) — `messages_sent.inc()` runs
before the log line raises, so "the failed counter — not the sent counter —
is incremented" is false on the code. -/
theorem C10_counterexample :
    (send_event true true "i" "t" [("licensePlate", JVal.null)]
        ⟨⟨some true, true⟩, 0, 0, 0, []⟩).1.sent = 1 ∧
    (send_event true true "i" "t" [("licensePlate", JVal.null)]
        ⟨⟨some true, true⟩, 0, 0, 0, []⟩).1.failed = 1 := by
  decide

/-- Claim C10, amended: for every single-event payload whose `licensePlate`
key is present with value null, whenever the underlying send succeeds the
stripped event is still published to the broker, yet the response reports
failure (`success = false`, HTTP 500) with the `licensePlate` KeyError, and
BOTH counters move: the sent counter (and a latency observation, both
recorded before the post-send lookup raises) and the failed counter. -/
theorem C10_published_despite_failure (co po : Bool) (id ts : String)
    (data : Payload) (g : GwState)
    (h1 : data.lookup "licensePlate" = some JVal.null)
    (h2 : (StompConnection.send co po g.conn).error = none) :
    (send_event co po id ts data g).1.published =
      g.published ++ [normalizeSingle id ts data] ∧
    (send_event co po id ts data g).2 =
      SendEventResponse.fail (PyErr.keyError "licensePlate") ∧
    statusCode (send_event co po id ts data g).2 = 500 ∧
    (send_event co po id ts data g).1.sent = g.sent + 1 ∧
    (send_event co po id ts data g).1.failed = g.failed + 1 ∧
    (send_event co po id ts data g).1.latencyObs = g.latencyObs + 1 := by
  have hplate : (buildEvent id ts data).lookup "licensePlate" = some JVal.null := by
    rw [buildEvent_lookup_plate, getD_some h1]
  have hev : (normalizeSingle id ts data).lookup "licensePlate" = none := by
    rw [normalizeSingle_lookup, hplate]
    simp
  simp [send_event, h2, hev, statusCode]

/-- Claim C10, witness: the amended behavior at a concrete connected state
with counters 5 and 7: both counters advance. -/
theorem C10_published_despite_failure_witness :
    (send_event true true "i" "t" [("licensePlate", JVal.null)]
        ⟨⟨some true, true⟩, 5, 7, 3, []⟩).1.sent = 6 ∧
    (send_event true true "i" "t" [("licensePlate", JVal.null)]
        ⟨⟨some true, true⟩, 5, 7, 3, []⟩).1.failed = 8 := by
  have h := C10_published_despite_failure true true "i" "t"
      [("licensePlate", JVal.null)] ⟨⟨some true, true⟩, 5, 7, 3, []⟩ rfl rfl
  exact ⟨h.2.2.2.1, h.2.2.2.2.1⟩
